import Mathlib

/-!
Verification of the glamap directory/coordination layer.

The definitions below are a shallow embedding of the repository's code:
`src/server/routes.ts` (Express route handlers) and the client-side pieces
`src/client/src/pages/Home.tsx` (profile sorting) and
`src/client/src/components/Map.tsx` (map-marker filtering).

Conventions of the embedding:
* machine numbers are modelled as `ℚ` (JS numbers in the relevant ranges are
  exact) and ids as `ℕ`;
* timestamps are epoch milliseconds as `ℚ` (`Date.now()`,
  `new Date(x).getTime()`);
* nullable fields are `Option`;
* each route handler is a pure function of the store state, the resolved
  authenticated profile (the `!profile` → 401 guard is outside the modelled
  function: handlers receive the non-null resolved profile), the parsed
  input, and — where the handler performs an awaited external call whose
  outcome matters — an explicit parameter for that call's outcome;
* storage-layer functions (`server/storage.ts` is not part of the sources
  at hand) are modelled from the spec, each marked `Modelled from the spec`.
-/

namespace Glamap

/-- A profile row, after the data model of the spec (§3) and the fields the
route handlers and client code read: `id`, `username`, `role`,
`locationType`, coordinates, derived `rating`/`reviewCount`,
`usernameChangedAt` (epoch ms) and `isAdmin`. -/
structure Profile where
  id : ℕ
  userId : String
  username : String
  role : String
  locationType : String
  latitude : Option ℚ
  longitude : Option ℚ
  bio : String
  rating : Option ℚ
  reviewCount : Option ℕ
  usernameChangedAt : Option ℚ
  isAdmin : Bool
deriving Repr, DecidableEq

/-- A service row: `id`, `providerId`, `name`, optional `price`. -/
structure Service where
  id : ℕ
  providerId : ℕ
  name : String
  price : Option ℚ
deriving Repr, DecidableEq

/-- A review row: `id`, `clientId`, `providerId`, `rating`, optional text. -/
structure Review where
  id : ℕ
  clientId : ℕ
  providerId : ℕ
  rating : ℕ
  text : Option String
deriving Repr, DecidableEq

/-- A message row: `id`, `senderId`, `receiverId`, `content`, `createdAt`
(epoch ms). -/
structure Message where
  id : ℕ
  senderId : ℕ
  receiverId : ℕ
  content : String
  createdAt : ℚ
deriving Repr, DecidableEq

/-- A notification row: `id`, recipient `profileId`, `type`, `title`,
`content`, optional `link`, `read` flag. -/
structure Notification where
  id : ℕ
  profileId : ℕ
  type : String
  title : String
  content : String
  link : Option String
  read : Bool
deriving Repr, DecidableEq

/-- The persistent store: one list per entity, in creation (store) order,
plus a fresh-id dispenser standing for the store's id sequence. -/
structure Store where
  profiles : List Profile
  services : List Service
  reviews : List Review
  messages : List Message
  notifs : List Notification
  nextId : ℕ
deriving Repr, DecidableEq

/-! ### Username change throttle (`routes.ts`, `PUT /profiles/me/username`) -/

/-- Outcome of the username-update handler: `noOp` is the early
`res.json(profile)` return for an unchanged username, `rateLimited` is the
429 with its `daysLeft`, `conflict` the 409, and `updated` the successful
update carrying the patched profile. -/
inductive UsernameResult where
  | noOp (p : Profile)
  | rateLimited (daysLeft : ℤ)
  | conflict
  | updated (p : Profile)
deriving Repr, DecidableEq

/-- The body of the `PUT /profiles/me/username` handler
(`routes.ts:85-113`). `now` is `Date.now()`; `lookup` is the result of the
awaited `storage.getProfileByUsername(username)` call. The cooldown
computes `daysSinceChange = (now - usernameChangedAt) / (1000*60*60*24)`
and, when it is `< 7`, answers 429 with `daysLeft = ceil(7 -
daysSinceChange)`; the successful branch persists the new username together
with `usernameChangedAt = now`. -/
def updateUsernameHandler (profile : Profile) (username : String) (now : ℚ)
    (lookup : Option Profile) : UsernameResult :=
  if profile.username = username then
    .noOp profile
  else
    let cooldown : Option ℤ :=
      match profile.usernameChangedAt with
      | some t =>
        let daysSinceChange : ℚ := (now - t) / (1000 * 60 * 60 * 24)
        if daysSinceChange < 7 then some (Int.ceil (7 - daysSinceChange)) else none
      | none => none
    match cooldown with
    | some daysLeft => .rateLimited daysLeft
    | none =>
      match lookup with
      | some existing =>
        if existing.id ≠ profile.id then .conflict
        else .updated { profile with username := username, usernameChangedAt := some now }
      | none => .updated { profile with username := username, usernameChangedAt := some now }

/-- A throwaway concrete profile used by the closed witness theorems. -/
def sampleProfile : Profile :=
  { id := 1, userId := "u_1", username := "gigi", role := "provider",
    locationType := "studio", latitude := some (-34), longitude := some 151,
    bio := "", rating := some 5, reviewCount := some 3,
    usernameChangedAt := some 0, isAdmin := false }

/-- Claim C3: if `usernameChangedAt` is set and fewer than 7 days have
elapsed, a request for a different username is rate limited and reports
`daysLeft = ceil(7 - daysSinceChange)`. -/
theorem updateUsername_cooldown (profile : Profile) (username : String)
    (now t : ℚ) (lookup : Option Profile)
    (hne : profile.username ≠ username)
    (hset : profile.usernameChangedAt = some t)
    (hlt : (now - t) / (1000 * 60 * 60 * 24) < 7) :
    updateUsernameHandler profile username now lookup =
      .rateLimited (Int.ceil (7 - (now - t) / (1000 * 60 * 60 * 24))) := by
  unfold updateUsernameHandler
  rw [if_neg hne, hset]
  simp only [if_pos hlt]

/-- Claim C3 witness: changing at day 0 and retrying at day 3
(now = 3 · 86400000 ms) yields `daysLeft = 4`. -/
theorem updateUsername_cooldown_witness :
    updateUsernameHandler sampleProfile "newname" 259200000 none = .rateLimited 4 := by
  have h := updateUsername_cooldown sampleProfile "newname" 259200000 0 none
    (by decide) rfl (by norm_num)
  rw [h]
  norm_num

/-- Claim C7: a username-update request for the current username is a no-op:
the handler returns the profile unchanged (no store write, so
`usernameChangedAt` is untouched), and no cooldown check happens — the
result does not depend on `now` or on the store lookup. -/
theorem updateUsername_noop (profile : Profile) (username : String)
    (now : ℚ) (lookup : Option Profile)
    (heq : profile.username = username) :
    updateUsernameHandler profile username now lookup = .noOp profile := by
  unfold updateUsernameHandler
  rw [if_pos heq]

/-- Claim C7 witness: `sampleProfile` has `usernameChangedAt = some 0`, so at
`now = 0` the cooldown window is fully active, yet re-requesting the current
username succeeds as a no-op. -/
theorem updateUsername_noop_witness :
    updateUsernameHandler sampleProfile "gigi" 0 none = .noOp sampleProfile ∧
      sampleProfile.usernameChangedAt = some 0 :=
  ⟨updateUsername_noop sampleProfile "gigi" 0 none rfl, rfl⟩

/-! ### Modelled storage layer

`server/storage.ts` is not among the sources at hand; the storage functions
the handlers await are modelled from the spec (§4.1, §4.6, §3). -/

/-- Modelled from the spec: `storage.createMessage` inserts a message row
with a store-assigned fresh id and `createdAt = now`, preserving insertion
order. -/
def createMessage (st : Store) (senderId receiverId : ℕ) (content : String)
    (now : ℚ) : Store × Message :=
  let msg : Message :=
    { id := st.nextId, senderId := senderId,
      receiverId := receiverId, content := content, createdAt := now }
  ({ st with messages := st.messages ++ [msg], nextId := st.nextId + 1 }, msg)

/-- Modelled from the spec: `storage.createNotification` inserts an unread
notification row with a store-assigned fresh id. -/
def createNotification (st : Store) (profileId : ℕ) (type title content : String)
    (link : Option String) : Store × Notification :=
  let n : Notification :=
    { id := st.nextId, profileId := profileId,
      type := type, title := title, content := content, link := link, read := false }
  ({ st with notifs := st.notifs ++ [n], nextId := st.nextId + 1 }, n)

/-- Modelled from the spec: `storage.getMessage`, lookup of a message by id;
absent rows give an explicit `none` (§4.1). -/
def getMessage (st : Store) (messageId : ℕ) : Option Message :=
  st.messages.find? (fun m => m.id == messageId)

/-- Modelled from the spec: `storage.deleteMessage` "deletes the single
message" (§4.6) — removes exactly the rows with that id. -/
def deleteMessage (st : Store) (messageId : ℕ) : Store :=
  { st with messages := st.messages.filter (fun m => m.id != messageId) }

/-- Modelled from the spec: `storage.deleteConversation` "deletes all
messages between the two parties unconditionally" (§4.6): a message belongs
to the conversation when its (sender, receiver) pair is (a, b) or (b, a). -/
def deleteConversation (st : Store) (a b : ℕ) : Store :=
  { st with messages := st.messages.filter (fun m =>
      !((m.senderId == a && m.receiverId == b) || (m.senderId == b && m.receiverId == a))) }

/-- Modelled from the spec: `storage.getReviewByClientAndProvider`, lookup of
the review for a (clientId, providerId) pair (§4.3). -/
def getReviewByClientAndProvider (st : Store) (clientId providerId : ℕ) : Option Review :=
  st.reviews.find? (fun r => r.clientId == clientId && r.providerId == providerId)

/-- Modelled from the spec: `storage.createReview` inserts a review row with
a store-assigned fresh id. -/
def createReview (st : Store) (clientId providerId rating : ℕ)
    (text : Option String) : Store × Review :=
  let r : Review :=
    { id := st.nextId, clientId := clientId,
      providerId := providerId, rating := rating, text := text }
  ({ st with reviews := st.reviews ++ [r], nextId := st.nextId + 1 }, r)

/-- Modelled from the spec: `storage.getServiceByNameAndProvider`, lookup of
a provider's service by name (§4.5). -/
def getServiceByNameAndProvider (st : Store) (name : String) (providerId : ℕ) :
    Option Service :=
  st.services.find? (fun s => s.name == name && s.providerId == providerId)

/-- Modelled from the spec: `storage.createService` inserts a service row
with a store-assigned fresh id. -/
def createService (st : Store) (name : String) (price : Option ℚ)
    (providerId : ℕ) : Store × Service :=
  let s : Service :=
    { id := st.nextId, providerId := providerId,
      name := name, price := price }
  ({ st with services := st.services ++ [s], nextId := st.nextId + 1 }, s)

/-- Modelled from the spec: `storage.deleteService` removes the service row
with the given id. -/
def deleteService (st : Store) (serviceId : ℕ) : Store :=
  { st with services := st.services.filter (fun s => s.id != serviceId) }

/-! ### Message routes (`routes.ts:218-260`) -/

/-- Parsed body of `POST /messages`. The `senderId` field stands for any
sender id the client may try to supply in the body; the handler builds the
row as `{ ...input, senderId: profile.id }`, so the later explicit key wins
over anything in the input. -/
structure SendInput where
  senderId : Option ℕ
  receiverId : ℕ
  content : String
deriving Repr, DecidableEq

/-- Outcome of the `POST /messages` handler: `ok` is the 201 response with
the created message; `err` is the handler aborting with a propagated
exception, carrying the store state at the point of the throw. -/
inductive SendResult where
  | ok (st : Store) (msg : Message)
  | err (st : Store)
deriving Repr, DecidableEq

/-- The store state carried by a send outcome. -/
def SendResult.state : SendResult → Store
  | .ok st _ => st
  | .err st => st

/-- Whether the send completed and reported the message as sent (201). -/
def SendResult.isOk : SendResult → Bool
  | .ok _ _ => true
  | .err _ => false

/-- The body of the `POST /messages` handler (`routes.ts:218-235`): it first
awaits `storage.createMessage({ ...input, senderId: profile.id })`, then —
with no try/catch around it — awaits `storage.createNotification` for the
receiver. `notifFails` is the outcome of that second awaited call: when it
rejects, the exception propagates out of the handler and no 201 is sent,
while the already-persisted message stays in the store. -/
def messagesSendHandler (st : Store) (profile : Profile) (input : SendInput)
    (now : ℚ) (notifFails : Bool) : SendResult :=
  let r := createMessage st profile.id input.receiverId input.content now
  if notifFails then .err r.1
  else
    let st2 := (createNotification r.1 input.receiverId "message" "New Message"
      (profile.username ++ " sent you a message") (some "/messages")).1
    .ok st2 r.2

/-- The body of the `DELETE /messages/:id` handler (`routes.ts:237-251`):
missing message or a requester who is neither sender nor receiver yields
status 401 and no write; otherwise the single message is deleted and the
status is 204. -/
def messagesDeleteHandler (st : Store) (profile : Profile) (messageId : ℕ) :
    Store × ℕ :=
  match getMessage st messageId with
  | none => (st, 401)
  | some m =>
    if m.senderId ≠ profile.id ∧ m.receiverId ≠ profile.id then (st, 401)
    else (deleteMessage st messageId, 204)

/-- The body of the `DELETE /messages/conversation/:otherUserId` handler
(`routes.ts:253-260`): unconditionally deletes the conversation between the
requester's profile and `otherUserId` and answers 204. -/
def messagesDeleteConversationHandler (st : Store) (profile : Profile)
    (otherUserId : ℕ) : Store × ℕ :=
  (deleteConversation st profile.id otherUserId, 204)

/-! ### Review and service routes (`routes.ts:132-200`) -/

/-- Parsed body of `POST /reviews`. The `clientId` field stands for any
client id supplied in the body; the handler builds the row as
`{ ...input, clientId: profile.id }`, so the explicit key wins. -/
structure ReviewInput where
  clientId : Option ℕ
  providerId : ℕ
  rating : ℕ
  text : Option String
deriving Repr, DecidableEq

/-- Outcome of `POST /reviews`: 400 self-review, 409 duplicate, or 201 with
the new store state and created review. -/
inductive ReviewResult where
  | badRequest
  | conflict
  | created (st : Store) (r : Review)
deriving Repr, DecidableEq

/-- The body of the `POST /reviews` handler (`routes.ts:171-186`): 400 when
`input.providerId === profile.id`; 409 when
`storage.getReviewByClientAndProvider(profile.id, input.providerId)` finds an
existing review; otherwise creates `{ ...input, clientId: profile.id }`. -/
def reviewsCreateHandler (st : Store) (profile : Profile) (input : ReviewInput) :
    ReviewResult :=
  if input.providerId = profile.id then .badRequest
  else
    match getReviewByClientAndProvider st profile.id input.providerId with
    | some _ => .conflict
    | none =>
      let r := createReview st profile.id input.providerId input.rating input.text
      .created r.1 r.2

/-- Parsed body of `POST /services`. The `providerId` field stands for any
provider id supplied in the body; the handler builds the row as
`{ ...input, providerId: profile.id }`, so the explicit key wins. -/
structure ServiceInput where
  providerId : Option ℕ
  name : String
  price : Option ℚ
deriving Repr, DecidableEq

/-- Outcome of `POST /services`: 401 wrong role, 409 duplicate name, or 201
with the new store state and created service. -/
inductive ServiceResult where
  | unauthorized
  | conflict
  | created (st : Store) (s : Service)
deriving Repr, DecidableEq

/-- The body of the `POST /services` handler (`routes.ts:132-146`): 401
unless the resolved profile has role `provider`; 409 when the provider
already has a service of that name; otherwise creates
`{ ...input, providerId: profile.id }`. -/
def servicesCreateHandler (st : Store) (profile : Profile) (input : ServiceInput) :
    ServiceResult :=
  if profile.role ≠ "provider" then .unauthorized
  else
    match getServiceByNameAndProvider st input.name profile.id with
    | some _ => .conflict
    | none =>
      let r := createService st input.name input.price profile.id
      .created r.1 r.2

/-- The body of the `DELETE /services/:id` handler (`routes.ts:148-155`).
The source contains no ownership check — only the comment
"Ideally check ownership" — and deletes the service by id for any
authenticated requester, answering 204. -/
def servicesDeleteHandler (st : Store) (profile : Profile) (serviceId : ℕ) :
    Store × ℕ :=
  (deleteService st serviceId, 204)

/-! ### Concrete fixtures for the closed theorems -/

/-- An empty store whose id sequence starts at 1. -/
def emptyStore : Store :=
  { profiles := [], services := [], reviews := [], messages := [], notifs := [],
    nextId := 1 }

/-- A requester profile distinct from `sampleProfile`, not owning anything. -/
def outsiderProfile : Profile :=
  { sampleProfile with id := 3, userId := "u_3", username := "casey", role := "client" }

/-- A service owned by provider 2, used by the service-deletion scenario. -/
def lashesService : Service :=
  { id := 10, providerId := 2, name := "Lashes", price := some 80 }

/-- Store holding only `lashesService`. -/
def serviceStore : Store := { emptyStore with services := [lashesService] }

/-- An existing review by client 1 for provider 2. -/
def existingReview : Review :=
  { id := 5, clientId := 1, providerId := 2, rating := 5, text := none }

/-- Store holding only `existingReview`. -/
def reviewStore : Store := { emptyStore with reviews := [existingReview] }

/-- A message from profile 1 to profile 2. -/
def msgOneTwo : Message :=
  { id := 1, senderId := 1, receiverId := 2, content := "hi", createdAt := 0 }

/-- A message from profile 2 to profile 1. -/
def msgTwoOne : Message :=
  { id := 2, senderId := 2, receiverId := 1, content := "hey", createdAt := 1 }

/-- A message from profile 1 to profile 3, outside the (1,2) conversation. -/
def msgOneThree : Message :=
  { id := 3, senderId := 1, receiverId := 3, content := "yo", createdAt := 2 }

/-- Store holding the three sample messages. -/
def messageStore : Store :=
  { emptyStore with messages := [msgOneTwo, msgTwoOne, msgOneThree], nextId := 4 }

/-! ### Claim theorems: server side -/

/-- Claim C1 counterexample: with an empty store, `sampleProfile` sending
"hi" to profile 2 while the notification insert fails does NOT complete —
the handler is not `ok` — even though the message was persisted; this
refutes "the operation still completes and reports the message as sent". -/
theorem sendMessage_notifFailure_counterexample :
    (messagesSendHandler emptyStore sampleProfile
        { senderId := none, receiverId := 2, content := "hi" } 0 true).isOk = false ∧
      (messagesSendHandler emptyStore sampleProfile
          { senderId := none, receiverId := 2, content := "hi" } 0 true).state.messages =
        [msgOneTwo] :=
  ⟨rfl, rfl⟩

/-- Claim C1 (amended): when the secondary notification insert fails, the
stored message is not rolled back — it sits in the resulting store — but
the send operation itself fails (no 201); it completes only when the
notification insert also succeeds. -/
theorem sendMessage_notifFailure_keeps_message (st : Store) (profile : Profile)
    (input : SendInput) (now : ℚ) :
    (messagesSendHandler st profile input now true).isOk = false ∧
      (messagesSendHandler st profile input now true).state.messages =
        st.messages ++
          [{ id := st.nextId, senderId := profile.id,
             receiverId := input.receiverId, content := input.content,
             createdAt := now }] ∧
      (messagesSendHandler st profile input now false).isOk = true :=
  ⟨rfl, rfl, rfl⟩

/-- Claim C2 (code bug): the `DELETE /services/:id` handler deletes a
service the requester does not own. Requester `outsiderProfile` (id 3) asks
to delete service 10, owned by provider 2: the handler answers 204 and the
service is gone, although the ids differ. -/
theorem servicesDelete_ignores_ownership :
    outsiderProfile.id ≠ lashesService.providerId ∧
      (servicesDeleteHandler serviceStore outsiderProfile 10).2 = 204 ∧
      (servicesDeleteHandler serviceStore outsiderProfile 10).1.services = [] := by
  refine ⟨by decide, rfl, rfl⟩

/-- Claim C4: review creation answers 400 when the target provider is the
requester's own profile (whatever its role), 409 when a review for the
(client, provider) pair already exists, and creates the review only in the
remaining case. -/
theorem reviewsCreate_guards (st : Store) (profile : Profile) (input : ReviewInput) :
    (input.providerId = profile.id →
        reviewsCreateHandler st profile input = .badRequest) ∧
      (input.providerId ≠ profile.id →
        ∀ r, getReviewByClientAndProvider st profile.id input.providerId = some r →
          reviewsCreateHandler st profile input = .conflict) ∧
      (input.providerId ≠ profile.id →
        getReviewByClientAndProvider st profile.id input.providerId = none →
          reviewsCreateHandler st profile input =
            .created (createReview st profile.id input.providerId input.rating input.text).1
              (createReview st profile.id input.providerId input.rating input.text).2) := by
  refine ⟨fun h => ?_, fun h r hr => ?_, fun h hn => ?_⟩
  · unfold reviewsCreateHandler
    rw [if_pos h]
  · unfold reviewsCreateHandler
    rw [if_neg h, hr]
  · unfold reviewsCreateHandler
    rw [if_neg h, hn]

/-- Claim C4 witness: profile 1 re-reviewing provider 2 over `reviewStore`
(which already holds `existingReview` for that pair) answers 409. -/
theorem reviewsCreate_guards_witness :
    reviewsCreateHandler reviewStore sampleProfile
        { clientId := none, providerId := 2, rating := 4, text := none } = .conflict :=
  (reviewsCreate_guards reviewStore sampleProfile
      { clientId := none, providerId := 2, rating := 4, text := none }).2.1
    (by decide) existingReview rfl

/-- Claim C5: conversation deletion always answers 204, and a message
survives it exactly when it is not part of the (requester, other) pair in
either direction — messages of every other pair are untouched. -/
theorem deleteConversation_frame (st : Store) (profile : Profile) (otherUserId : ℕ) :
    (messagesDeleteConversationHandler st profile otherUserId).2 = 204 ∧
      ∀ m : Message,
        m ∈ (messagesDeleteConversationHandler st profile otherUserId).1.messages ↔
          m ∈ st.messages ∧
            ¬((m.senderId = profile.id ∧ m.receiverId = otherUserId) ∨
              (m.senderId = otherUserId ∧ m.receiverId = profile.id)) := by
  refine ⟨rfl, fun m => ?_⟩
  simp only [messagesDeleteConversationHandler, deleteConversation, List.mem_filter,
    Bool.not_eq_true', Bool.or_eq_false_iff, Bool.and_eq_false_iff,
    beq_eq_false_iff_ne, ne_eq, not_or, not_and]
  tauto

/-- Claim C5 witness: deleting the conversation between profile 1 and
profile 2 over `messageStore` keeps the (1,3) message and answers 204. -/
theorem deleteConversation_frame_witness :
    (messagesDeleteConversationHandler messageStore sampleProfile 2).2 = 204 ∧
      msgOneThree ∈ (messagesDeleteConversationHandler messageStore sampleProfile 2).1.messages :=
  ⟨(deleteConversation_frame messageStore sampleProfile 2).1,
    ((deleteConversation_frame messageStore sampleProfile 2).2 msgOneThree).mpr
      ⟨by decide, by decide⟩⟩

/-- Claim C8 counterexample: profile 3, neither sender nor receiver of
message 1 (sent 1 → 2), asks to delete it: the handler answers 401 — not
403 Forbidden — and leaves the store unchanged. -/
theorem messagesDelete_status_counterexample :
    (messagesDeleteHandler messageStore outsiderProfile 1).2 = 401 ∧
      (messagesDeleteHandler messageStore outsiderProfile 1).2 ≠ 403 ∧
      (messagesDeleteHandler messageStore outsiderProfile 1).1 = messageStore := by
  refine ⟨?_, by decide, ?_⟩ <;> rfl

/-- Claim C8 (amended): for an existing message, a requester who is sender
or receiver gets the single message deleted (204) — the surviving messages
are exactly those with a different id — while any other requester gets
status 401 (not 403) and no write. -/
theorem messagesDelete_participant_guard (st : Store) (profile : Profile)
    (messageId : ℕ) (m : Message)
    (hget : getMessage st messageId = some m) :
    ((m.senderId = profile.id ∨ m.receiverId = profile.id) →
        messagesDeleteHandler st profile messageId = (deleteMessage st messageId, 204) ∧
          ∀ m' : Message,
            m' ∈ (messagesDeleteHandler st profile messageId).1.messages ↔
              m' ∈ st.messages ∧ m'.id ≠ messageId) ∧
      (m.senderId ≠ profile.id → m.receiverId ≠ profile.id →
        messagesDeleteHandler st profile messageId = (st, 401)) := by
  constructor
  · intro hpart
    have hcond : ¬(m.senderId ≠ profile.id ∧ m.receiverId ≠ profile.id) := by
      rcases hpart with h | h
      · exact fun hc => hc.1 h
      · exact fun hc => hc.2 h
    have hh : messagesDeleteHandler st profile messageId = (deleteMessage st messageId, 204) := by
      simp only [messagesDeleteHandler, hget, if_neg hcond]
    refine ⟨hh, fun m' => ?_⟩
    rw [hh]
    simp [deleteMessage, List.mem_filter]
  · intro hs hr
    simp only [messagesDeleteHandler, hget]
    rw [if_pos ⟨hs, hr⟩]

/-- Claim C8 witness: profile 1, the sender of message 1 in `messageStore`,
deletes it: status 204 and the single-message delete is applied. -/
theorem messagesDelete_participant_guard_witness :
    messagesDeleteHandler messageStore sampleProfile 1 =
      (deleteMessage messageStore 1, 204) :=
  ((messagesDelete_participant_guard messageStore sampleProfile 1 msgOneTwo rfl).1
    (Or.inl rfl)).1

/-- Claim C10: each owner-side foreign key comes from the resolved profile,
never from the request body: a stored message that is new relative to the
incoming store has `senderId = profile.id`, a created review has
`clientId = profile.id`, and a created service has
`providerId = profile.id`, whatever ids the inputs carry. -/
theorem ownerForeignKeys (st : Store) (profile : Profile) (si : SendInput)
    (ri : ReviewInput) (vi : ServiceInput) (now : ℚ) (nf : Bool) :
    (∀ m : Message, m ∈ (messagesSendHandler st profile si now nf).state.messages →
        m ∈ st.messages ∨ m.senderId = profile.id) ∧
      (∀ st' rv, reviewsCreateHandler st profile ri = .created st' rv →
        rv.clientId = profile.id) ∧
      (∀ st' sv, servicesCreateHandler st profile vi = .created st' sv →
        sv.providerId = profile.id) := by
  refine ⟨fun m hm => ?_, fun st' rv h => ?_, fun st' sv h => ?_⟩
  · cases nf with
    | true =>
      simp only [messagesSendHandler, if_pos, SendResult.state, createMessage,
        List.mem_append, List.mem_singleton] at hm
      rcases hm with h | h
      · exact Or.inl h
      · subst h; exact Or.inr rfl
    | false =>
      simp only [messagesSendHandler, Bool.false_eq_true, if_neg,
        not_false_eq_true, SendResult.state, createNotification, createMessage,
        List.mem_append, List.mem_singleton] at hm
      rcases hm with h | h
      · exact Or.inl h
      · subst h; exact Or.inr rfl
  · unfold reviewsCreateHandler at h
    split at h
    · exact absurd h (by simp)
    · split at h
      · exact absurd h (by simp)
      · rw [ReviewResult.created.injEq] at h
        rw [← h.2]
        rfl
  · unfold servicesCreateHandler at h
    split at h
    · exact absurd h (by simp)
    · split at h
      · exact absurd h (by simp)
      · rw [ServiceResult.created.injEq] at h
        rw [← h.2]
        rfl

/-- Claim C10 witness: provider `sampleProfile` (id 1) creating service
"Lashes" with a body claiming `providerId = 99` still gets a service owned
by profile 1. -/
theorem ownerForeignKeys_witness :
    (createService emptyStore "Lashes" (some 80) sampleProfile.id).2.providerId =
      sampleProfile.id :=
  (ownerForeignKeys emptyStore sampleProfile
      { senderId := some 9, receiverId := 2, content := "hi" }
      { clientId := some 9, providerId := 2, rating := 4, text := none }
      { providerId := some 99, name := "Lashes", price := some 80 } 0 false).2.2
    (createService emptyStore "Lashes" (some 80) sampleProfile.id).1
    (createService emptyStore "Lashes" (some 80) sampleProfile.id).2 rfl

/-! ### Client-side sorting (`Home.tsx:161-177`)

The `sortedProfiles` memo copies the fetched list and sorts it with
`Array.prototype.sort` under a numeric comparator. ECMAScript sort is
stable, and a stable sort under the total preorder induced by a numeric
comparator `c` is the unique permutation that orders `a` no later than `b`
whenever `c a b ≤ 0` and keeps ties in input order; `List.insertionSort r`
with `r a b := (c a b ≤ 0)` is exactly such a stable sort, since it inserts
each element before the first `b` with `r a b`. -/

/-- The rating key `(x.rating || 0)`: a missing rating is treated as 0. -/
def ratingOf (p : Profile) : ℚ := p.rating.getD 0

/-- The review-count key `(x.reviewCount || 0)`. -/
def reviewsOf (p : Profile) : ℕ := p.reviewCount.getD 0

/-- The `sortedProfiles` memo of `Home.tsx:161-177`. For `rating_high` the
comparator is `(b.rating||0) - (a.rating||0)`, i.e. `a` is ordered no later
than `b` when `ratingOf b ≤ ratingOf a`; the other keyed cases are
analogous, and any other `sortBy` value returns the copied list as is. -/
def sortedProfiles (sortBy : String) (profiles : List Profile) : List Profile :=
  match sortBy with
  | "rating_high" => profiles.insertionSort (fun a b => ratingOf b ≤ ratingOf a)
  | "rating_low" => profiles.insertionSort (fun a b => ratingOf a ≤ ratingOf b)
  | "reviews_high" => profiles.insertionSort (fun a b => reviewsOf b ≤ reviewsOf a)
  | "reviews_low" => profiles.insertionSort (fun a b => reviewsOf a ≤ reviewsOf b)
  | _ => profiles

/-- Unfolding equation for the `rating_high` branch. -/
theorem sortedProfiles_rating_high (l : List Profile) :
    sortedProfiles "rating_high" l =
      l.insertionSort (fun a b => ratingOf b ≤ ratingOf a) := rfl

/-- Unfolding equation for the `rating_low` branch. -/
theorem sortedProfiles_rating_low (l : List Profile) :
    sortedProfiles "rating_low" l =
      l.insertionSort (fun a b => ratingOf a ≤ ratingOf b) := rfl

/-- Unfolding equation for the `reviews_high` branch. -/
theorem sortedProfiles_reviews_high (l : List Profile) :
    sortedProfiles "reviews_high" l =
      l.insertionSort (fun a b => reviewsOf b ≤ reviewsOf a) := rfl

/-- Unfolding equation for the `reviews_low` branch. -/
theorem sortedProfiles_reviews_low (l : List Profile) :
    sortedProfiles "reviews_low" l =
      l.insertionSort (fun a b => reviewsOf a ≤ reviewsOf b) := rfl

/-- Filtering by a predicate that only keeps mutually `r`-related elements
commutes with `orderedInsert`: the inserted element never passes an element
it is tied with, so it lands in front of all kept elements it was inserted
before. -/
theorem filter_orderedInsert {α : Type} (r : α → α → Prop) [DecidableRel r]
    (p : α → Bool) (h : ∀ a b, p a = true → p b = true → r a b) (x : α)
    (l : List α) :
    (l.orderedInsert r x).filter p =
      if p x then x :: l.filter p else l.filter p := by
  induction l with
  | nil => simp [List.orderedInsert, List.filter_cons]
  | cons b l ih =>
    rw [List.orderedInsert]
    by_cases hxb : r x b
    · rw [if_pos hxb, List.filter_cons]
    · rw [if_neg hxb]
      by_cases hpb : p b = true
      · have hpx : ¬p x = true := fun hx => hxb (h x b hx hpb)
        simp [List.filter_cons, hpb, ih, hpx]
      · simp [List.filter_cons, hpb, ih]

/-- Stability of insertion sort, filter form: the elements sharing one key
class (any class on which the order cannot distinguish) come out in their
input order. -/
theorem filter_insertionSort {α : Type} (r : α → α → Prop) [DecidableRel r]
    (p : α → Bool) (h : ∀ a b, p a = true → p b = true → r a b)
    (l : List α) :
    (l.insertionSort r).filter p = l.filter p := by
  induction l with
  | nil => rfl
  | cons a l ih =>
    rw [List.insertionSort, filter_orderedInsert r p h, ih, List.filter_cons]

/-- Combined behaviour of a stable comparator sort: sorted output, a
permutation of the input, and key classes kept in input order. -/
theorem stableSort_spec {α : Type} (r : α → α → Prop) [DecidableRel r]
    (htot : ∀ a b, r a b ∨ r b a) (htrans : ∀ a b c, r a b → r b c → r a c)
    (l : List α) (p : α → Bool) (hp : ∀ a b, p a = true → p b = true → r a b) :
    (l.insertionSort r).Sorted r ∧ List.Perm (l.insertionSort r) l ∧
      (l.insertionSort r).filter p = l.filter p := by
  refine ⟨?_, List.perm_insertionSort r l, filter_insertionSort r p hp l⟩
  haveI : IsTotal α r := ⟨htot⟩
  haveI : IsTrans α r := ⟨htrans⟩
  exact List.sorted_insertionSort r l

/-- A profile with id 5 and rating 3, tied with `profileTwo`. -/
def profileFive : Profile :=
  { sampleProfile with id := 5, userId := "u_5", username := "eve", rating := some 3 }

/-- A profile with id 2 and rating 3, tied with `profileFive`. -/
def profileTwo : Profile :=
  { sampleProfile with id := 2, userId := "u_2", username := "bo", rating := some 3 }

/-- Claim C6 counterexample: two profiles tied on rating, listed with the
higher id first, keep that order under `rating_high` — ties are NOT broken
by ascending profile id. -/
theorem sortedProfiles_tie_counterexample :
    sortedProfiles "rating_high" [profileFive, profileTwo] =
        [profileFive, profileTwo] ∧
      ratingOf profileFive = ratingOf profileTwo ∧
      profileTwo.id < profileFive.id ∧
      sortedProfiles "rating_high" [profileFive, profileTwo] ≠
        [profileTwo, profileFive] := by
  refine ⟨by decide, by decide, by decide, by decide⟩

/-- Claim C6 (amended): sorting is done by the caller over the fetched
list; `default` returns the list in store order; each keyed mode sorts by
its key with a missing value treated as 0, the output being a permutation
of the input that is pairwise ordered by the key; and ties are kept in
input (store) order — the sort is stable, with no id tie-break. -/
theorem sortedProfiles_spec (l : List Profile) (k : ℚ) (n : ℕ) :
    sortedProfiles "default" l = l ∧
      ((sortedProfiles "rating_high" l).Sorted (fun a b => ratingOf b ≤ ratingOf a) ∧
        List.Perm (sortedProfiles "rating_high" l) l ∧
        (sortedProfiles "rating_high" l).filter (fun p => ratingOf p == k) =
          l.filter (fun p => ratingOf p == k)) ∧
      ((sortedProfiles "rating_low" l).Sorted (fun a b => ratingOf a ≤ ratingOf b) ∧
        List.Perm (sortedProfiles "rating_low" l) l ∧
        (sortedProfiles "rating_low" l).filter (fun p => ratingOf p == k) =
          l.filter (fun p => ratingOf p == k)) ∧
      ((sortedProfiles "reviews_high" l).Sorted (fun a b => reviewsOf b ≤ reviewsOf a) ∧
        List.Perm (sortedProfiles "reviews_high" l) l ∧
        (sortedProfiles "reviews_high" l).filter (fun p => reviewsOf p == n) =
          l.filter (fun p => reviewsOf p == n)) ∧
      ((sortedProfiles "reviews_low" l).Sorted (fun a b => reviewsOf a ≤ reviewsOf b) ∧
        List.Perm (sortedProfiles "reviews_low" l) l ∧
        (sortedProfiles "reviews_low" l).filter (fun p => reviewsOf p == n) =
          l.filter (fun p => reviewsOf p == n)) := by
  refine ⟨rfl, ?_, ?_, ?_, ?_⟩
  · rw [sortedProfiles_rating_high]
    exact stableSort_spec (fun a b => ratingOf b ≤ ratingOf a)
      (fun a b => le_total (ratingOf b) (ratingOf a))
      (fun a b c hab hbc => le_trans hbc hab) l
      (fun p => ratingOf p == k)
      (fun a b ha hb => by
        rw [beq_iff_eq] at ha hb
        rw [ha, hb])
  · rw [sortedProfiles_rating_low]
    exact stableSort_spec (fun a b => ratingOf a ≤ ratingOf b)
      (fun a b => le_total (ratingOf a) (ratingOf b))
      (fun a b c hab hbc => le_trans hab hbc) l
      (fun p => ratingOf p == k)
      (fun a b ha hb => by
        rw [beq_iff_eq] at ha hb
        rw [ha, hb])
  · rw [sortedProfiles_reviews_high]
    exact stableSort_spec (fun a b => reviewsOf b ≤ reviewsOf a)
      (fun a b => le_total (reviewsOf b) (reviewsOf a))
      (fun a b c hab hbc => le_trans hbc hab) l
      (fun p => reviewsOf p == n)
      (fun a b ha hb => by
        rw [beq_iff_eq] at ha hb
        rw [ha, hb])
  · rw [sortedProfiles_reviews_low]
    exact stableSort_spec (fun a b => reviewsOf a ≤ reviewsOf b)
      (fun a b => le_total (reviewsOf a) (reviewsOf b))
      (fun a b c hab hbc => le_trans hab hbc) l
      (fun p => reviewsOf p == n)
      (fun a b ha hb => by
        rw [beq_iff_eq] at ha hb
        rw [ha, hb])

/-! ### Client-side map filtering (`Map.tsx:87-98`) -/

/-- Result of the JavaScript `Number(x)` coercion: a finite value or NaN. -/
inductive JsNumber where
  | fin (q : ℚ)
  | nan
deriving Repr, DecidableEq

/-- JavaScript `Number.isFinite`. -/
def JsNumber.isFinite : JsNumber → Bool
  | .fin _ => true
  | .nan => false

/-- The coordinate read of `Map.tsx:91-92`,
`typeof v === "number" ? v : Number(v)`, on a number-or-null coordinate: a
numeric coordinate is used as is, while a missing (null) coordinate is not
of type number and goes through `Number(null)`, which is `0` in
JavaScript. -/
def coordNumber : Option ℚ → JsNumber
  | some q => .fin q
  | none => .fin 0

/-- The `validProfiles` filter of `Map.tsx:90-98`: the profiles rendered as
map markers are those whose coerced coordinates pass `Number.isFinite` and
whose `locationType` is not `mobile`. -/
def validProfiles (profiles : List Profile) : List Profile :=
  profiles.filter (fun p =>
    (coordNumber p.latitude).isFinite && (coordNumber p.longitude).isFinite &&
      p.locationType != "mobile")

/-- A non-mobile profile with no coordinates at all. -/
def nullIslandProfile : Profile :=
  { sampleProfile with
      id := 7, userId := "u_7", username := "nocoords",
      latitude := none, longitude := none, locationType := "studio" }

/-- Claim C9 counterexample: a profile whose latitude and longitude are
null — so neither is a finite number — is still rendered as a map marker,
because `Number(null)` is `0` and `0` is finite; this refutes the "only if
both its latitude and longitude are finite numbers" direction. -/
theorem validProfiles_null_counterexample :
    nullIslandProfile ∈ validProfiles [nullIslandProfile] ∧
      nullIslandProfile.latitude = none ∧ nullIslandProfile.longitude = none := by
  refine ⟨by decide, rfl, rfl⟩

/-- Claim C9 (amended): over number-or-null coordinates the finiteness test
never rejects — a null coordinate coerces to the finite `0` — so a profile
is rendered as a map marker exactly when its `locationType` is not
`mobile`; in particular mobile providers are never shown, even with
coordinates, and profiles without coordinates are shown. -/
theorem validProfiles_mem (l : List Profile) (p : Profile) :
    (p ∈ validProfiles l ↔ p ∈ l ∧ p.locationType ≠ "mobile") ∧
      (coordNumber p.latitude).isFinite = true ∧
      (coordNumber p.longitude).isFinite = true := by
  have hlat : (coordNumber p.latitude).isFinite = true := by
    cases h : p.latitude <;> rfl
  have hlng : (coordNumber p.longitude).isFinite = true := by
    cases h : p.longitude <;> rfl
  refine ⟨?_, hlat, hlng⟩
  simp [validProfiles, List.mem_filter, hlat, hlng, bne_iff_ne]

end Glamap
